import Mathlib

/-!
Shallow embedding of the boat2merch server (`src/boatstickerweb/server.js`):
the order-and-generation orchestration pipeline.  JavaScript string and
number primitives used by the server are modelled over `List Char` so that
every definition reduces in the kernel.
-/

namespace Boat2Merch

/-- ASCII whitespace recognised by JS `String.prototype.trim` on the inputs
this server handles. -/
def isWs (c : Char) : Bool :=
  c = ' ' || c = '\t' || c = '\n' || c = '\r'

/-- JS `String.prototype.trim` (ASCII whitespace). -/
def jsTrim (s : String) : String :=
  ⟨(((s.data.dropWhile isWs).reverse).dropWhile isWs).reverse⟩

/-- JS `String.prototype.toUpperCase` restricted to ASCII. -/
def jsUpper (s : String) : String :=
  ⟨s.data.map Char.toUpper⟩

/-- JS `String.prototype.toLowerCase` restricted to ASCII. -/
def jsLower (s : String) : String :=
  ⟨s.data.map Char.toLower⟩

/-- Helper for `strIncludes`: does `needle` occur as a contiguous run of `hay`? -/
def listIncludes [DecidableEq α] : List α → List α → Bool
  | hay, needle =>
    match hay with
    | [] => needle.isEmpty
    | _ :: t => needle.isPrefixOf hay || listIncludes t needle

/-- JS `hay.includes(needle)` (substring test). -/
def strIncludes (hay needle : String) : Bool :=
  listIncludes hay.data needle.data

/-- JS `s.slice(0, n)` for a nonnegative bound. -/
def jsSliceTo (s : String) (n : Nat) : String :=
  ⟨s.data.take n⟩

/-- Decimal digit test. -/
def isDigit (c : Char) : Bool :=
  '0' ≤ c && c ≤ '9'

/-- Numeric value of a digit string (most significant first). -/
def digitsVal (ds : List Char) : Nat :=
  ds.foldl (fun a c => a * 10 + (c.toNat - 48)) 0

/-- JS `parseInt(s, 10)`: skip leading whitespace, read an optional sign and a
maximal run of decimal digits; `none` models `NaN`. -/
def parseIntJS (s : String) : Option Int :=
  let core : List Char → Bool → Option Int := fun rest neg =>
    let ds := rest.takeWhile isDigit
    if ds.isEmpty then none
    else some (if neg then -(digitsVal ds : Int) else (digitsVal ds : Int))
  match (jsTrim s).data with
  | '-' :: rest => core rest true
  | '+' :: rest => core rest false
  | cs => core cs false

/-- JS `x || d` on a parsed number: `NaN` (`none`) and `0` are falsy. -/
def jsOrInt (x : Option Int) (d : Int) : Int :=
  match x with
  | none => d
  | some v => if v = 0 then d else v

/-!
Free-plan limit configuration, from `server.js`:

  const { ..., FREE_DAILY_LIMIT = "1" } = process.env;
  const FREE_LIMIT = Math.max(parseInt(FREE_DAILY_LIMIT, 10) || 3, 1);

`env = none` models an unset `FREE_DAILY_LIMIT` environment variable, in
which case the destructuring default `"1"` applies.
-/

/-- Effective `FREE_LIMIT` as computed at module load from the
`FREE_DAILY_LIMIT` environment variable. -/
def freeLimitOfEnv (env : Option String) : Int :=
  max (jsOrInt (parseIntJS (env.getD "1")) 3) 1

/-!
Country normalization, from `server.js` `normalizeCountryCode`:
uppercase the trimmed input, pass two-letter alphabetic codes through,
map a fixed table of spellings, otherwise return the fallback.
-/

/-- Lookup table of full-name / punctuated spellings, from the `MAP`
literal inside `normalizeCountryCode`. -/
def countryMap : List (String × String) :=
  [("UNITED STATES", "US"), ("UNITED STATES OF AMERICA", "US"), ("USA", "US"),
   ("U.S.", "US"), ("U.S.A.", "US"), ("AMERICA", "US"), ("CANADA", "CA")]

/-- Test for the regex `/^[A-Z]{2}$/`. -/
def isTwoUpperAlpha (s : String) : Bool :=
  s.data.length = 2 && s.data.all (fun c => 'A' ≤ c && c ≤ 'Z')

/-- Model of `normalizeCountryCode(input, fallback)`.  `input = none` models
`null`/`undefined`; the empty string is falsy in JS, hence also yields the
fallback.  The source's local `raw = String(input).trim().toUpperCase()` is
inlined. -/
def normalizeCountryCode (input : Option String) (fallback : String) : String :=
  match input with
  | none => fallback
  | some s =>
    if s = "" then fallback
    else
      if isTwoUpperAlpha (jsUpper (jsTrim s)) then jsUpper (jsTrim s)
      else
        match countryMap.find? (fun p => p.1 = jsUpper (jsTrim s)) with
        | some p => p.2
        | none => fallback

/-!
CatalogResolver: SKU resolution, from `server.js` `pickPreferredVariant`
and `pickSkuForCountry`.  `enabled` is the simplified, country-filtered
variant list produced by `fetchVariantsForCountry` (passed here as data,
since the fetch is an external HTTP call).
-/

/-- Simplified variant entry `{ sku, name }` as cached per country. -/
structure Variant where
  sku : String
  name : String
deriving DecidableEq, Repr

/-- Constant `DESIRED_SIZE` from the source. -/
def DESIRED_SIZE : String := "525x725"

/-- Constant `DESIRED_PACK` from the source. -/
def DESIRED_PACK : String := "1Pack"

/-- Constant `DESIRED_VARIANT` from the source. -/
def DESIRED_VARIANT : String := "Single"

/-- The haystack `` `${v.sku} ${v.name}` `` used by `pickPreferredVariant`. -/
def hayOf (v : Variant) : String :=
  v.sku ++ " " ++ v.name

/-- First-tier test of `pickPreferredVariant`: all three desired tokens occur. -/
def strictMatch (size pack vart : String) (v : Variant) : Bool :=
  strIncludes (hayOf v) size && strIncludes (hayOf v) pack && strIncludes (hayOf v) vart

/-- Second-tier test of `pickPreferredVariant`: size and pack tokens occur. -/
def sizePackMatch (size pack : String) (v : Variant) : Bool :=
  strIncludes (hayOf v) size && strIncludes (hayOf v) pack

/-- Model of `pickPreferredVariant(enabled, {size, pack, variant})`.
`none` models JS `undefined` (empty `enabled` list). -/
def pickPreferredVariant (enabled : List Variant) (size pack vart : String) : Option String :=
  match enabled.find? (strictMatch size pack vart) with
  | some v => some v.sku
  | none =>
    match enabled.find? (sizePackMatch size pack) with
    | some v => some v.sku
    | none => enabled.head?.map Variant.sku

/-- Errors thrown by `pickSkuForCountry`. -/
inductive SkuError where
  | noEnabledVariants (country : String)
  | noSkuResolved (country : String)
deriving DecidableEq, Repr

/-- The non-override tail of `pickSkuForCountry`: run `pickPreferredVariant`
on the desired attributes and fail when the chosen value is JS-falsy
(`undefined` or the empty string). -/
def resolveByPolicy (enabled : List Variant) (country : String) : Except SkuError String :=
  match pickPreferredVariant enabled DESIRED_SIZE DESIRED_PACK DESIRED_VARIANT with
  | none => Except.error (SkuError.noSkuResolved country)
  | some c => if c = "" then Except.error (SkuError.noSkuResolved country) else Except.ok c

/-- Model of `pickSkuForCountry({ preferredSku, countryCode })`.  A `some s`
override with `s = ""` is JS-falsy and is skipped exactly like `null`. -/
def pickSkuForCountry (enabled : List Variant) (preferredSku : Option String) (country : String) :
    Except SkuError String :=
  if enabled.isEmpty then Except.error (SkuError.noEnabledVariants country)
  else
    match preferredSku with
    | some s =>
      if s ≠ "" && enabled.any (fun v => v.sku = s) then Except.ok s
      else resolveByPolicy enabled country
    | none => resolveByPolicy enabled country

/-- First-tier test in the words of the spec: each desired token occurs as a
substring of the SKU or of the display name. -/
def specStrictMatch (v : Variant) : Bool :=
  (strIncludes v.sku DESIRED_SIZE || strIncludes v.name DESIRED_SIZE) &&
  (strIncludes v.sku DESIRED_PACK || strIncludes v.name DESIRED_PACK) &&
  (strIncludes v.sku DESIRED_VARIANT || strIncludes v.name DESIRED_VARIANT)

/-- Second-tier test in the words of the spec. -/
def specSizePackMatch (v : Variant) : Bool :=
  (strIncludes v.sku DESIRED_SIZE || strIncludes v.name DESIRED_SIZE) &&
  (strIncludes v.sku DESIRED_PACK || strIncludes v.name DESIRED_PACK)

/-- The spec's tiered selection (§4.1 (b)-(d)): exact match on
size+pack+variant, then size+pack, then the first enabled variant, and the
no-SKU-resolved error when no candidate survives. -/
def specTiers (enabled : List Variant) (country : String) : Except SkuError String :=
  match enabled.find? specStrictMatch with
  | some v => Except.ok v.sku
  | none =>
    match enabled.find? specSizePackMatch with
    | some v => Except.ok v.sku
    | none =>
      match enabled.head? with
      | some v => Except.ok v.sku
      | none => Except.error (SkuError.noSkuResolved country)

/-- The spec's full selection policy (§4.1 (a)-(d)), written from the spec's
words for comparison with `pickSkuForCountry`: an override SKU is used if
and only if it is present in the enabled set, otherwise the tiers apply;
the no-enabled-variants error fires on an empty enabled set. -/
def specSkuPolicy (enabled : List Variant) (override : Option String) (country : String) :
    Except SkuError String :=
  if enabled.isEmpty then Except.error (SkuError.noEnabledVariants country)
  else
    match override with
    | some s => if s ∈ enabled.map Variant.sku then Except.ok s else specTiers enabled country
    | none => specTiers enabled country

/-!
EntitlementGate: plan-aware free-generation quota, from `server.js`
`assertWithinFreeLimit` and the quota phase of `POST /generate-image`.
The `generations` table is modelled as a list of rows; `plan` is the
result of `getPlan(userId)`.
-/

/-- Plan derived from subscription rows by `getPlan`. -/
inductive Plan where
  | free
  | pro
deriving DecidableEq, Repr

/-- Row of the `generations` table. -/
structure GenRecord where
  userId : String
  mode : String
  externalId : String
  createdAt : Int
deriving DecidableEq, Repr

/-- One day, in the seconds timeline used for `created_at`/`NOW()`. -/
def secondsPerDay : Int := 86400

/-- Quota predicate of the SQL `WHERE` clause:
`user_id = $1 AND created_at > NOW() - INTERVAL '1 day'`. -/
def inTrailingDay (uid : String) (now : Int) (r : GenRecord) : Bool :=
  r.userId = uid && now - secondsPerDay < r.createdAt

/-- The `COUNT(*)` of generation rows for `uid` in the trailing 24 hours. -/
def countRecent (recs : List GenRecord) (uid : String) (now : Int) : Nat :=
  (recs.filter (inTrailingDay uid now)).length

/-- Payload of the `FREE_LIMIT` error (`err.meta`). -/
structure QuotaErr where
  limit : Int
  used : Nat
  window : String
deriving DecidableEq, Repr

/-- Model of `assertWithinFreeLimit(userId)`: `none` means the check passed,
`some e` models the thrown `FREE_LIMIT` error with its `meta`. -/
def assertWithinFreeLimit (plan : Plan) (userId : Option String) (recs : List GenRecord)
    (now limit : Int) : Option QuotaErr :=
  match userId with
  | none => none
  | some uid =>
    if plan = Plan.pro then none
    else
      let used := countRecent recs uid now
      if limit ≤ (used : Int) then some ⟨limit, used, "24h"⟩ else none

/-- HTTP-level result of the quota phase of `POST /generate-image`. -/
inductive GenerateGate where
  | rateLimited (limit : Int) (used : Nat) (window : String)
  | proceed
deriving DecidableEq, Repr

/-- The quota phase of `POST /generate-image`: a `FREE_LIMIT` error becomes a
429 response carrying the error's `limit`, `used` and `window` meta. -/
def generateImageQuotaPhase (plan : Plan) (userId : Option String) (recs : List GenRecord)
    (now limit : Int) : GenerateGate :=
  match assertWithinFreeLimit plan userId recs now limit with
  | some e => GenerateGate.rateLimited e.limit e.used e.window
  | none => GenerateGate.proceed

/-!
Generation-record ingestion, from `GET /prediction-status/:id`: on a
`succeeded` poll by an authenticated user, insert into `generations` with
`ON CONFLICT (user_id, external_id) DO NOTHING`.
-/

/-- JS `x || d` for an optional string: `undefined`/`null`/`""` are falsy. -/
def jsOrStr (x : Option String) (d : String) : String :=
  match x with
  | none => d
  | some s => if s = "" then d else s

/-- Does the `generations` table contain a row for this
`(user_id, external_id)` pair (the `UNIQUE` key)? -/
def hasGenRecord (recs : List GenRecord) (uid extId : String) : Bool :=
  recs.any (fun r => r.userId = uid && r.externalId = extId)

/-- `INSERT INTO generations ... ON CONFLICT (user_id, external_id) DO
NOTHING` against the table's unique constraint. -/
def insertGeneration (recs : List GenRecord) (uid mode extId : String) (now : Int) :
    List GenRecord :=
  if hasGenRecord recs uid extId then recs
  else recs ++ [⟨uid, mode, extId, now⟩]

/-- Effect of one `GET /prediction-status/:id` request on the `generations`
table: `user` is the authenticated user (if any), `status` the provider's
reported job status, `modeQ` the `mode` query parameter. -/
def pollStatusEffect (recs : List GenRecord) (user : Option String) (status : String)
    (modeQ : Option String) (predictionId : String) (now : Int) : List GenRecord :=
  if status = "succeeded" then
    match user with
    | some uid =>
      let mode := if jsLower (jsOrStr modeQ "sticker") = "image" then "image" else "sticker"
      insertGeneration recs uid mode predictionId now
    | none => recs
  else recs

/-- Number of rows for a given `(user_id, external_id)` pair. -/
def countGenPair (recs : List GenRecord) (uid extId : String) : Nat :=
  (recs.filter (fun r => r.userId = uid && r.externalId = extId)).length

/-!
ArtworkGenerationOrchestrator: plan-aware prompt selection and the
inline-data-URL to uploaded-URL transport fallback, from the body of
`POST /generate-image`.
-/

/-- Pro sticker prompt (`PRO_STICKER_PROMPT` in the source). -/
def PRO_STICKER_PROMPT : String :=
  "Create a vibrant, vector-style illustration of the boat shown in the input image, preserving the boat’s ORIGINAL colors (hull, stripes/graphics, upholstery) and readable name/registration numbers. Simplify shapes, clean edges, and add subtle 2–3 tone cel-shading for depth. Add a thick white die-cut contour around the entire silhouette so it reads as a sticker. TRANSPARENT background. Include the entire boat with a small margin—no cropping. Remove all water, wake, reflections, and scenery. No extra elements or cast shadows outside the silhouette."

/-- Pro image prompt (`PRO_IMAGE_PROMPT` in the source). -/
def PRO_IMAGE_PROMPT : String :=
  "Create a clean, poster-style COLORED line illustration of the boat in the input image using the boat’s ORIGINAL color palette (hull/trim/decals). Use a thin dark outline with tasteful line-weight variation and minimal 1–2 tone shading for form. SOLID WHITE background. Show the entire boat with a small margin—no cropping. Exclude water, wake, reflections, people, and background scenery. No extra elements or effects."

/-- Free prompt (`FREE_PROMPT_BASE` in the source), used for both modes. -/
def FREE_PROMPT_BASE : String :=
  "Create a clean black-and-white line drawing of the boat in the input image. No color. Uniform thin black outline, no shading or gradients, no textures. Show the entire boat with a small margin — do not crop. Remove water, wake, reflections, people, and any background scenery. Do not add extra elements, decals, text, logos, or effects."

/-- Prompt and background selection of `POST /generate-image`:
`mode = (req.body?.mode || "sticker").toLowerCase()`, `isSticker = mode ===
"sticker"`, `prompt = isPro ? (isSticker ? PRO_STICKER : PRO_IMAGE) : FREE`,
`backgroundSetting = isSticker ? "transparent" : "opaque"`. -/
def generatePromptSelection (modeBody : Option String) (plan : Plan) : String × String :=
  let mode := jsLower (jsOrStr modeBody "sticker")
  let isSticker := mode = "sticker"
  let prompt :=
    if plan = Plan.pro then (if isSticker then PRO_STICKER_PROMPT else PRO_IMAGE_PROMPT)
    else FREE_PROMPT_BASE
  (prompt, if isSticker then "transparent" else "opaque")

/-- Fields of the Replicate prediction request relevant here: which image
reference was sent, with which prompt and background. -/
structure PredictionRequest where
  imageRef : String
  prompt : String
  background : String
deriving DecidableEq, Repr

/-- Request assembled by `makePrediction(imageRef)` inside the handler. -/
def makePredictionRequest (modeBody : Option String) (plan : Plan) (imageRef : String) :
    PredictionRequest :=
  ⟨imageRef, (generatePromptSelection modeBody plan).1, (generatePromptSelection modeBody plan).2⟩

/-- Provider response to a prediction-create call, as summarised by
`makePrediction`: `ok id`, or a failure with HTTP status and the error text
`String(pred.payload)`. -/
inductive PredResult where
  | ok (id : String)
  | fail (code : Nat) (errText : String)
deriving DecidableEq, Repr

/-- The six error-text signatures recognised by the fallback test in the
handler (`errText.includes(...)`). -/
def fallbackSignatures : List String :=
  ["data URL", "base64", "Too Large", "payload", "unsupported", "input_images"]

/-- The handler's `shouldFallback` condition: a status of at least 400 and an
error text matching one of the recognised signatures. -/
def shouldFallback (code : Nat) (errText : String) : Bool :=
  decide (400 ≤ code) && fallbackSignatures.any (fun sig => strIncludes errText sig)

/-- Result of the tmpfiles.org fallback upload: `ok url` where `url = none`
models a response without `data.url`, or an HTTP failure. -/
inductive UploadResult where
  | ok (url : Option String)
  | fail (status : Nat) (body : String)
deriving DecidableEq, Repr

/-- Terminal outcome of the generation submission. -/
inductive GenOutcome where
  | success (predictionId : String)
  | uploadFailed (status : Nat) (details : String)
  | noUrlFromHost
  | providerError (code : Nat) (details : String)
deriving DecidableEq, Repr

/-- Trace summary of one run of the submission pipeline. -/
structure GenRun where
  outcome : GenOutcome
  fallbackTried : Bool
  inlineAttempts : Nat
  urlAttempts : Nat
deriving DecidableEq, Repr

/-- The transport logic of `POST /generate-image` after preprocessing:
submit inline, and on a recognised rejection fall back (once) to uploading
and resubmitting by URL.  `first` is the provider's response to the inline
request, `upload` the file host's response (consulted only in the fallback
branch), `second` the provider's response to the URL resubmission. -/
def runGeneration (first : PredResult) (upload : UploadResult) (second : PredResult) : GenRun :=
  match first with
  | PredResult.ok id => ⟨GenOutcome.success id, false, 1, 0⟩
  | PredResult.fail code txt =>
    if shouldFallback code txt then
      match upload with
      | UploadResult.fail st body => ⟨GenOutcome.uploadFailed st body, true, 1, 0⟩
      | UploadResult.ok none => ⟨GenOutcome.noUrlFromHost, true, 1, 0⟩
      | UploadResult.ok (some _) =>
        match second with
        | PredResult.ok id => ⟨GenOutcome.success id, true, 1, 1⟩
        | PredResult.fail c2 t2 => ⟨GenOutcome.providerError c2 t2, true, 1, 1⟩
    else ⟨GenOutcome.providerError code txt, false, 1, 0⟩

/-!
SessionAuthenticator: magic-link verification, from `GET /auth/verify`.
The token hash (`sha256` hex) is abstracted as a function parameter; the
`login_tokens` and `sessions` tables are lists of rows.
-/

/-- Row of the `login_tokens` table. -/
structure LoginToken where
  id : String
  userId : String
  tokenHash : String
  expiresAt : Int
  used : Bool
deriving DecidableEq, Repr

/-- Row of the `sessions` table. -/
structure Session where
  id : String
  userId : String
  expiresAt : Int
deriving DecidableEq, Repr

/-- The auth-relevant tables. -/
structure AuthDb where
  loginTokens : List LoginToken
  sessions : List Session
deriving DecidableEq, Repr

/-- HTTP result of `GET /auth/verify`. -/
inductive VerifyResult where
  | missingToken
  | invalidOrExpired
  | success (sessionId : String)
deriving DecidableEq, Repr

/-- The endpoint's lookup: `token_hash = $1 AND used = false AND
expires_at > $2 LIMIT 1`. -/
def findValidToken (hash : String → String) (tokens : List LoginToken) (raw : String)
    (now : Int) : Option LoginToken :=
  tokens.find? (fun lt => lt.tokenHash = hash raw && lt.used = false && now < lt.expiresAt)

/-- Session lifetime: 90 days. -/
def sessionLifetime : Int := 90 * secondsPerDay

/-- Model of `GET /auth/verify?token=...`: on a valid token, `UPDATE
login_tokens SET used=true WHERE id=$1` and `INSERT INTO sessions`;
otherwise the invalid-or-expired error and no state change. -/
def verifyEndpoint (hash : String → String) (db : AuthDb) (rawToken : Option String)
    (now : Int) (newSessionId : String) : VerifyResult × AuthDb :=
  let raw := jsOrStr rawToken ""
  if raw = "" then (VerifyResult.missingToken, db)
  else
    match findValidToken hash db.loginTokens raw now with
    | none => (VerifyResult.invalidOrExpired, db)
    | some lt =>
      let tokens := db.loginTokens.map (fun t => if t.id = lt.id then { t with used := true } else t)
      let sessions := { id := newSessionId, userId := lt.userId,
                        expiresAt := now + sessionLifetime : Session } :: db.sessions
      (VerifyResult.success newSessionId, ⟨tokens, sessions⟩)

/-!
FulfillmentSubmitter: Gooten order construction, from `server.js`
`safeSourceId`, `submitGootenOrder`, and the one-time-payment branch of
`POST /webhook`.
-/

/-- JS truthiness of an optional string. -/
def jsTruthy (x : Option String) : Bool :=
  match x with
  | none => false
  | some s => s ≠ ""

/-- JS `a || b` on two optional strings, keeping the option. -/
def jsOrOpt (a b : Option String) : Option String :=
  if jsTruthy a then a else b

/-- Helper for `splitOnSpace` (JS `split(" ")`). -/
def splitSpAux : List Char → List Char → List String
  | [], acc => [⟨acc.reverse⟩]
  | c :: rest, acc =>
    if c = ' ' then (⟨acc.reverse⟩ : String) :: splitSpAux rest []
    else splitSpAux rest (c :: acc)

/-- JS `s.split(" ")` (always returns at least one element). -/
def splitOnSpace (s : String) : List String :=
  splitSpAux s.data []

/-- JS `xs.join(" ")`. -/
def joinSpace : List String → String
  | [] => ""
  | [x] => x
  | x :: y :: xs => x ++ " " ++ joinSpace (y :: xs)

/-- `name?.split(" ")?.[0] || "Customer"`. -/
def firstNameOf (name : Option String) : String :=
  match name with
  | none => "Customer"
  | some n => jsOrStr (splitOnSpace n).head? "Customer"

/-- `name?.split(" ")?.slice(1).join(" ") || " "`. -/
def lastNameOf (name : Option String) : String :=
  match name with
  | none => " "
  | some n =>
    let rest := joinSpace ((splitOnSpace n).drop 1)
    if rest = "" then " " else rest

/-- Loosely-structured address input to `submitGootenOrder` (all fields may
be absent). -/
structure Address where
  line1 : Option String
  line2 : Option String
  city : Option String
  state : Option String
  country : Option String
  postalCode : Option String
  zip : Option String
  phone : Option String
deriving DecidableEq, Repr

/-- The all-absent address (JS `{}`). -/
def emptyAddress : Address :=
  ⟨none, none, none, none, none, none, none, none⟩

/-- The `shipTo` record built by `submitGootenOrder` (also used as the
billing address). -/
structure ShipTo where
  firstName : String
  lastName : String
  line1 : String
  line2 : String
  city : String
  state : String
  countryCode : String
  postalCode : String
  phone : String
  email : String
deriving DecidableEq, Repr

/-- The `shipTo` construction inside `submitGootenOrder`. -/
def buildShipTo (email name : Option String) (addr : Address) : ShipTo :=
  { firstName := firstNameOf name
    lastName := lastNameOf name
    line1 := (addr.line1).getD ""
    line2 := (addr.line2).getD ""
    city := (addr.city).getD ""
    state := (addr.state).getD ""
    countryCode := normalizeCountryCode (jsOrOpt addr.country (some "US")) "US"
    postalCode := jsOrStr addr.postalCode (jsOrStr addr.zip "")
    phone := jsOrStr addr.phone "0000000000"
    email := jsOrStr email "unknown@example.com" }

/-- `getShipCountryCode` applied to the built `shipTo` record: its `country`
field is absent, so the `CountryCode` field is normalised (again). -/
def getShipCountryCode (st : ShipTo) : String :=
  normalizeCountryCode (some st.countryCode) "US"

/-- Constant `MAX_SOURCEID_LEN` from the source. -/
def MAX_SOURCEID_LEN : Nat := 50

/-- Model of `safeSourceId = (id) => (id ? String(id).slice(0, MAX_SOURCEID_LEN)
: undefined)`. -/
def safeSourceId (id : Option String) : Option String :=
  match id with
  | none => none
  | some s => if s = "" then none else some (jsSliceTo s MAX_SOURCEID_LEN)

/-- Failures of `submitGootenOrder`. -/
inductive GootenError where
  | missingEnv
  | skuFailure (e : SkuError)
  | orderRejected (status : Nat) (body : String)
deriving DecidableEq, Repr

/-- One entry of the order body's `Items` array. -/
structure OrderItem where
  quantity : Nat
  sku : String
  shipType : String
  imageUrl : String
  sourceId : Option String
deriving DecidableEq, Repr

/-- The JSON `body` POSTed to the Gooten orders endpoint. -/
structure OrderBody where
  shipTo : ShipTo
  billing : ShipTo
  items : List OrderItem
  partnerBillingKey : String
  isInTestMode : Bool
  sourceId : Option String
  isPartnerSourceIdUnique : Bool
deriving DecidableEq, Repr

/-- Model of `submitGootenOrder({imageUrl, email, name, address, sourceId})`
up to the POST: the order body it builds, or the error it throws first.
`catalog` stands for `fetchVariantsForCountry` (an external, cached HTTP
lookup); the `GOOTEN_*` environment variables are explicit parameters. -/
def submitGootenOrder (catalog : String → List Variant)
    (recipeId billingKey stickerSkuEnv testModeEnv : Option String)
    (imageUrl : String) (email name : Option String) (addr : Address)
    (sourceId : Option String) : Except GootenError OrderBody :=
  if !(jsTruthy recipeId && jsTruthy billingKey) then Except.error GootenError.missingEnv
  else
    let shipTo := buildShipTo email name addr
    let country := getShipCountryCode shipTo
    let preferred :=
      let t := jsTrim (jsOrStr stickerSkuEnv "")
      if t = "" then none else some t
    match pickSkuForCountry (catalog country) preferred country with
    | Except.error e => Except.error (GootenError.skuFailure e)
    | Except.ok sku =>
      let safeId := safeSourceId sourceId
      Except.ok
        { shipTo := shipTo
          billing := shipTo
          items := [⟨1, sku, "standard", imageUrl, safeId⟩]
          partnerBillingKey := billingKey.getD ""
          isInTestMode := jsLower (testModeEnv.getD "undefined") = "true"
          sourceId := safeId
          isPartnerSourceIdUnique := true }

/-- Fields of the Stripe Checkout Session consumed by the one-time-payment
webhook branch (`event.data.object` for `checkout.session.completed`).
`customerEmail` collapses `customer_details?.email || customer_email`;
`metadataBuyerAddress` is the parsed `metadata.buyerAddress` (JSON-parse
failure yields `{}`, modelled as `none`). -/
structure CheckoutSession where
  id : String
  mode : String
  customerEmail : Option String
  customerName : Option String
  customerPhone : Option String
  metadataImageUrl : Option String
  metadataBuyerName : Option String
  shippingAddr : Option Address
  metadataBuyerAddress : Option Address
deriving DecidableEq, Repr

/-- `session.shipping_details?.address || (parse of metadata.buyerAddress)`. -/
def oneTimeShipping (s : CheckoutSession) : Address :=
  match s.shippingAddr with
  | some a => a
  | none => (s.metadataBuyerAddress).getD emptyAddress

/-- The `address` argument assembled by the webhook's one-time branch:
`postal_code: shipping.postal_code || shipping.zip`, `phone:
session.customer_details?.phone`. -/
def webhookOneTimeAddress (s : CheckoutSession) : Address :=
  let sh := oneTimeShipping s
  { line1 := sh.line1, line2 := sh.line2, city := sh.city, state := sh.state,
    country := sh.country, postalCode := jsOrOpt sh.postalCode sh.zip, zip := none,
    phone := s.customerPhone }

/-- The `submitGootenOrder` call made by the one-time-payment branch of
`POST /webhook`, with `sourceId: session.id`. -/
def webhookOneTimeOrder (catalog : String → List Variant)
    (recipeId billingKey stickerSkuEnv testModeEnv : Option String)
    (s : CheckoutSession) : Except GootenError OrderBody :=
  submitGootenOrder catalog recipeId billingKey stickerSkuEnv testModeEnv
    (jsOrStr s.metadataImageUrl "")
    (some (jsOrStr s.customerEmail "unknown"))
    (some (jsOrStr s.metadataBuyerName (jsOrStr s.customerName "Customer")))
    (webhookOneTimeAddress s)
    (some s.id)

/-- Modelled from the spec: the fulfillment partner's order intake, which is
external to this repository.  Per §4.5/§8, the `SourceId` deduplication
token combined with the `IsPartnerSourceIdUnique` flag makes resubmission
safe: an order whose `SourceId` was already recorded records no second
order.  The partner state is the list of recorded orders' dedup tokens. -/
def partnerRecordOrder (recorded : List (Option String)) (body : OrderBody) :
    List (Option String) :=
  match body.sourceId with
  | some sid =>
    if body.isPartnerSourceIdUnique && recorded.contains (some sid) then recorded
    else recorded ++ [some sid]
  | none => recorded ++ [none]

/-!
PaymentWebhookRouter: the one-time-payment branch of `POST /webhook`.
The Gooten submission and the operator email are each wrapped in their own
`try/catch`, and `res.json({ received: true })` follows unconditionally.
-/

/-- The operator notification email body built by the webhook's one-time
branch (the JS template literal's indentation whitespace is elided). -/
def orderEmailHtml (buyerName buyerEmail : String) (shipping : Address) (imageUrl : String) :
    String :=
  "<h2>New Sticker Order</h2>\n" ++
  "<p><strong>Buyer Name:</strong> " ++ buyerName ++ "</p>\n" ++
  "<p><strong>Buyer Email:</strong> " ++ buyerEmail ++ "</p>\n" ++
  "<p><strong>Address:</strong><br/>\n" ++
  jsOrStr shipping.line1 "" ++ "<br/>\n" ++
  jsOrStr shipping.city "" ++ ", " ++ jsOrStr shipping.state "" ++ " " ++
  jsOrStr shipping.postalCode "" ++ "<br/>\n" ++
  jsOrStr shipping.country "" ++ "\n</p>\n" ++
  "<p><strong>Sticker Image:</strong></p>\n" ++
  "<img src=\"" ++ imageUrl ++ "\" alt=\"Purchased Sticker\" style=\"max-width:300px; border:1px solid #ccc; border-radius:6px;\" />"

/-- Observable result of running the one-time-payment webhook branch. -/
structure OneTimeBranchResult where
  fulfillment : Except GootenError OrderBody
  emailAttempted : Bool
  emailSubject : String
  emailHtml : String
  emailDelivered : Bool
  acknowledged : Bool
deriving Repr

/-- The one-time-payment branch of `POST /webhook`.  `partnerAccepts` (with
`partnerStatus`/`partnerRespBody`) is the partner's HTTP verdict on the
submitted order; `mailDelivered` is the SMTP transport's verdict on the
notification email.  Both calls sit in their own `try/catch`, so the branch
always attempts the email and always ends in `res.json({received:true})`. -/
def runOneTimeBranch (catalog : String → List Variant)
    (recipeId billingKey stickerSkuEnv testModeEnv : Option String)
    (s : CheckoutSession) (partnerAccepts : Bool) (partnerStatus : Nat)
    (partnerRespBody : String) (mailDelivered : Bool) : OneTimeBranchResult :=
  let buyerEmail := jsOrStr s.customerEmail "unknown"
  let buyerName := jsOrStr s.metadataBuyerName (jsOrStr s.customerName "Customer")
  let imageUrl := jsOrStr s.metadataImageUrl ""
  let shipping := oneTimeShipping s
  let fulfill :=
    match webhookOneTimeOrder catalog recipeId billingKey stickerSkuEnv testModeEnv s with
    | Except.error e => Except.error e
    | Except.ok b =>
      if partnerAccepts then Except.ok b
      else Except.error (GootenError.orderRejected partnerStatus partnerRespBody)
  { fulfillment := fulfill
    emailAttempted := true
    emailSubject := "New Sticker Order from " ++ buyerName
    emailHtml := orderEmailHtml buyerName buyerEmail shipping imageUrl
    emailDelivered := mailDelivered
    acknowledged := true }

/-- Whether a fulfillment attempt succeeded. -/
def exceptIsOk : Except GootenError OrderBody → Bool
  | Except.ok _ => true
  | Except.error _ => false

/-!
Shared helper lemmas.
-/

/-- Two members of a list of length at most one coincide. -/
theorem eq_of_mem_of_length_le_one {α : Type} {l : List α} {a b : α}
    (h : l.length ≤ 1) (ha : a ∈ l) (hb : b ∈ l) : a = b := by
  match l with
  | [] => cases ha
  | [x] =>
    rw [List.mem_singleton] at ha hb
    rw [ha, hb]
  | x :: y :: xs => simp at h

/-- A `find?` over pointwise-equal predicates. -/
theorem findq_congr {α : Type} (l : List α) (p q : α → Bool)
    (h : ∀ a ∈ l, p a = q a) : l.find? p = l.find? q := by
  induction l with
  | nil => rfl
  | cons x xs ih =>
    have hx := h x (List.mem_cons_self x xs)
    cases hq : q x with
    | true =>
      rw [List.find?_cons_of_pos _ (hx.trans hq), List.find?_cons_of_pos _ hq]
    | false =>
      rw [List.find?_cons_of_neg _ (by rw [hx, hq]; exact Bool.false_ne_true),
        List.find?_cons_of_neg _ (by rw [hq]; exact Bool.false_ne_true)]
      exact ih (fun a ha => h a (List.mem_cons_of_mem x ha))

/-- A space-free needle is a prefix of `c ++ ' ' :: b` exactly when it is a
prefix of `c`. -/
theorem isPrefixOf_append_space {n c b : List Char} (h : ' ' ∉ n) :
    n.isPrefixOf (c ++ ' ' :: b) = n.isPrefixOf c := by
  induction n generalizing c with
  | nil => simp [List.isPrefixOf]
  | cons nh nt ih =>
    cases c with
    | nil =>
      have hnh : nh ≠ ' ' := fun he => h (he ▸ List.mem_cons_self _ _)
      simp [List.isPrefixOf, hnh]
    | cons ch ct =>
      simp only [List.cons_append, List.isPrefixOf, List.append_eq]
      rw [ih (fun hm => h (List.mem_cons_of_mem _ hm))]

/-- A space-free needle occurs in `a ++ ' ' :: b` exactly when it occurs in
`a` or in `b`: a substring containing no space cannot straddle the
separator. -/
theorem listIncludes_append_space {a b n : List Char} (h : ' ' ∉ n) :
    listIncludes (a ++ ' ' :: b) n = (listIncludes a n || listIncludes b n) := by
  induction a with
  | nil =>
    cases n with
    | nil => simp [listIncludes, List.isPrefixOf]
    | cons nh nt =>
      have hnh : nh ≠ ' ' := fun he => h (he ▸ List.mem_cons_self _ _)
      simp [listIncludes, List.isPrefixOf, hnh]
  | cons x xs ih =>
    simp only [List.cons_append, listIncludes, List.append_eq]
    rw [ih, ← List.cons_append, isPrefixOf_append_space h, Bool.or_assoc]

/-- Boolean substring test versus the `IsInfix` relation. -/
theorem listIncludes_iff_infix {α : Type} [DecidableEq α] {l n : List α} :
    listIncludes l n = true ↔ n <:+: l := by
  induction l with
  | nil =>
    simp [listIncludes, List.isEmpty_iff, List.infix_nil]
  | cons x xs ih =>
    simp only [listIncludes, Bool.or_eq_true, List.isPrefixOf_iff_prefix, ih]
    constructor
    · rintro (hp | hi)
      · exact hp.isInfix
      · exact hi.trans (List.suffix_cons x xs).isInfix
    · intro hinf
      rcases List.infix_cons_iff.mp hinf with hp | hi
      · exact Or.inl hp
      · exact Or.inr hi

/-- The character data of the matching haystack `` `${sku} ${name}` ``. -/
theorem hayOf_data (v : Variant) : (hayOf v).data = v.sku.data ++ ' ' :: v.name.data := by
  rcases v with ⟨⟨l⟩, ⟨m⟩⟩
  show (l ++ [' ']) ++ m = l ++ ' ' :: m
  simp

/-- For a space-free token, matching against the concatenated haystack is the
same as matching against the SKU or the display name. -/
theorem strIncludes_hay (v : Variant) (tok : String) (h : ' ' ∉ tok.data) :
    strIncludes (hayOf v) tok = (strIncludes v.sku tok || strIncludes v.name tok) := by
  simp only [strIncludes, hayOf_data]
  exact listIncludes_append_space h

/-- The code's first-tier test agrees with the spec's wording on the desired
(space-free) tokens. -/
theorem strictMatch_eq_spec (v : Variant) :
    strictMatch DESIRED_SIZE DESIRED_PACK DESIRED_VARIANT v = specStrictMatch v := by
  simp only [strictMatch, specStrictMatch,
    strIncludes_hay v DESIRED_SIZE (by decide),
    strIncludes_hay v DESIRED_PACK (by decide),
    strIncludes_hay v DESIRED_VARIANT (by decide)]

/-- The code's second-tier test agrees with the spec's wording on the desired
(space-free) tokens. -/
theorem sizePackMatch_eq_spec (v : Variant) :
    sizePackMatch DESIRED_SIZE DESIRED_PACK v = specSizePackMatch v := by
  simp only [sizePackMatch, specSizePackMatch,
    strIncludes_hay v DESIRED_SIZE (by decide),
    strIncludes_hay v DESIRED_PACK (by decide)]

/-!
Claim theorems.
-/

/-- Claim C10: the effective free-generation limit is
`max(parseInt(FREE_DAILY_LIMIT, 10) || 3, 1)`: always at least 1, `1` when
the variable is missing (destructuring default `"1"`), `3` when the value
parses to `NaN` or `0`, `1` when it parses negative — so free generations
can never be configured fully off, and a fresh free user always passes the
quota gate. -/
theorem C10_free_limit_floor :
    (∀ s : String, freeLimitOfEnv (some s) = max (jsOrInt (parseIntJS s) 3) 1) ∧
    (∀ env : Option String, 1 ≤ freeLimitOfEnv env) ∧
    freeLimitOfEnv none = 1 ∧
    (∀ s : String, (parseIntJS s = none ∨ parseIntJS s = some 0) →
      freeLimitOfEnv (some s) = 3) ∧
    (∀ (s : String) (n : Int), parseIntJS s = some n → n < 0 →
      freeLimitOfEnv (some s) = 1) ∧
    (∀ (env : Option String) (uid : String) (now : Int),
      generateImageQuotaPhase Plan.free (some uid) [] now (freeLimitOfEnv env) =
        GenerateGate.proceed) := by
  refine ⟨fun s => rfl, fun env => le_max_right _ 1, by decide, ?_, ?_, ?_⟩
  · intro s h
    show max (jsOrInt (parseIntJS s) 3) 1 = 3
    rcases h with h | h <;> rw [h] <;> decide
  · intro s n h hneg
    show max (jsOrInt (parseIntJS s) 3) 1 = 1
    rw [h]
    simp only [jsOrInt]
    rw [if_neg (by omega : ¬ n = 0)]
    exact max_eq_right (by omega)
  · intro env uid now
    have h1 : 1 ≤ freeLimitOfEnv env := le_max_right _ 1
    simp only [generateImageQuotaPhase, assertWithinFreeLimit, countRecent, List.filter_nil,
      List.length_nil]
    rw [if_neg (by decide), if_neg (by push_cast; omega)]

/-- Witness for C10 at concrete inputs: a non-numeric value yields limit 3
and a negative value yields limit 1. -/
theorem C10_free_limit_floor_witness :
    (parseIntJS "abc" = none ∨ parseIntJS "abc" = some 0) ∧
    freeLimitOfEnv (some "abc") = 3 ∧
    parseIntJS "-7" = some (-7) ∧ freeLimitOfEnv (some "-7") = 1 :=
  ⟨Or.inl (by decide),
   C10_free_limit_floor.2.2.2.1 "abc" (Or.inl (by decide)),
   by decide,
   C10_free_limit_floor.2.2.2.2.1 "-7" (-7) (by decide) (by decide)⟩

/-- Claim C2: when a free-plan user's count of generation rows created in the
trailing 24 hours has reached the configured limit, the next generation
request is answered by the 429 rate-limit response carrying the limit, the
used count (with `used >= limit`) and the 24-hour window; a pro-plan user
never receives that response, whatever the table contents. -/
theorem C2_quota_exceeded (uid : String) (recs : List GenRecord) (now limit : Int)
    (h : limit ≤ (countRecent recs uid now : Int)) :
    generateImageQuotaPhase Plan.free (some uid) recs now limit =
      GenerateGate.rateLimited limit (countRecent recs uid now) "24h" ∧
    limit ≤ (countRecent recs uid now : Int) ∧
    (∀ (uid2 : String) (recs2 : List GenRecord) (now2 limit2 : Int),
      generateImageQuotaPhase Plan.pro (some uid2) recs2 now2 limit2 =
        GenerateGate.proceed) := by
  refine ⟨?_, h, ?_⟩
  · simp only [generateImageQuotaPhase, assertWithinFreeLimit]
    rw [if_neg (by decide), if_pos h]
  · intro uid2 recs2 now2 limit2
    simp [generateImageQuotaPhase, assertWithinFreeLimit]

/-- Witness for C2: one user with one generation row inside the window and
limit 1 is rate-limited with `used = 1 >= 1`. -/
theorem C2_quota_exceeded_witness :
    (1 : Int) ≤ (countRecent [⟨"u", "sticker", "p1", 0⟩] "u" 0 : Int) ∧
    (generateImageQuotaPhase Plan.free (some "u") [⟨"u", "sticker", "p1", 0⟩] 0 1 =
      GenerateGate.rateLimited 1 (countRecent [⟨"u", "sticker", "p1", 0⟩] "u" 0) "24h" ∧
    (1 : Int) ≤ (countRecent [⟨"u", "sticker", "p1", 0⟩] "u" 0 : Int) ∧
    (∀ (uid2 : String) (recs2 : List GenRecord) (now2 limit2 : Int),
      generateImageQuotaPhase Plan.pro (some uid2) recs2 now2 limit2 =
        GenerateGate.proceed)) :=
  ⟨by decide, C2_quota_exceeded "u" [⟨"u", "sticker", "p1", 0⟩] 0 1 (by decide)⟩

/-- A table with no row for the pair has pair-count zero. -/
theorem countGenPair_eq_zero {recs : List GenRecord} {uid pid : String}
    (h : hasGenRecord recs uid pid = false) : countGenPair recs uid pid = 0 := by
  simp only [hasGenRecord, List.any_eq_false] at h
  simp only [countGenPair, List.length_eq_zero, List.filter_eq_nil_iff]
  exact h

/-- One insertion cannot push a pair's row count beyond one. -/
theorem countGenPair_insert_le_one {recs : List GenRecord} {uid pid : String}
    (uid2 m pid2 : String) (t : Int) (h : countGenPair recs uid pid ≤ 1) :
    countGenPair (insertGeneration recs uid2 m pid2 t) uid pid ≤ 1 := by
  unfold insertGeneration
  by_cases hh : hasGenRecord recs uid2 pid2 = true
  · rw [if_pos hh]
    exact h
  · rw [if_neg hh]
    rw [Bool.not_eq_true] at hh
    simp only [countGenPair, List.filter_append, List.length_append]
    by_cases hmatch : uid2 = uid ∧ pid2 = pid
    · obtain ⟨h1, h2⟩ := hmatch
      subst h1
      subst h2
      have h0 := countGenPair_eq_zero hh
      simp only [countGenPair] at h0
      rw [h0]
      simp [List.length_filter_le]
    · have hrow : ¬(((⟨uid2, m, pid2, t⟩ : GenRecord).userId = uid &&
          (⟨uid2, m, pid2, t⟩ : GenRecord).externalId = pid) = true) := by
        simp only [Bool.and_eq_true, decide_eq_true_eq]
        exact fun hc => hmatch ⟨hc.1, hc.2⟩
      have hsing : List.filter
          (fun r : GenRecord => decide (r.userId = uid) && decide (r.externalId = pid))
          [⟨uid2, m, pid2, t⟩] = [] := by
        simp only [List.filter_cons, List.filter_nil]
        rw [if_neg hrow]
      rw [hsing, List.length_nil]
      simpa [countGenPair] using h

/-- After inserting a pair, the table has a row for it. -/
theorem hasGenRecord_insert (recs : List GenRecord) (uid m pid : String) (t : Int) :
    hasGenRecord (insertGeneration recs uid m pid t) uid pid = true := by
  unfold insertGeneration
  by_cases h : hasGenRecord recs uid pid = true
  · simp [h]
  · rw [if_neg h]
    simp [hasGenRecord, List.any_append]

/-- Inserting an already-present pair is the identity (the `ON CONFLICT DO
NOTHING` path). -/
theorem insertGeneration_noop {recs : List GenRecord} {uid pid : String} (m : String) (t : Int)
    (h : hasGenRecord recs uid pid = true) : insertGeneration recs uid m pid t = recs := by
  simp [insertGeneration, h]

/-- Claim C4: from a table holding at most one row for a `(user, job id)`
pair, any status poll leaves at most one row for that pair, and repeating a
succeeded poll for the same user and job id is a no-op on the table. -/
theorem C4_poll_at_most_once (recs : List GenRecord) (uid pid : String)
    (h : countGenPair recs uid pid ≤ 1) :
    (∀ (user : Option String) (status : String) (modeQ : Option String) (pid2 : String)
      (now : Int),
      countGenPair (pollStatusEffect recs user status modeQ pid2 now) uid pid ≤ 1) ∧
    (∀ (m1 m2 : Option String) (t1 t2 : Int),
      pollStatusEffect (pollStatusEffect recs (some uid) "succeeded" m1 pid t1)
        (some uid) "succeeded" m2 pid t2 =
      pollStatusEffect recs (some uid) "succeeded" m1 pid t1) := by
  have hstep : ∀ (m : Option String) (t : Int) (rs : List GenRecord),
      pollStatusEffect rs (some uid) "succeeded" m pid t =
        insertGeneration rs uid
          (if jsLower (jsOrStr m "sticker") = "image" then "image" else "sticker") pid t :=
    fun m t rs => rfl
  constructor
  · intro user status modeQ pid2 now
    unfold pollStatusEffect
    split
    · cases user with
      | none => exact h
      | some uid2 => exact countGenPair_insert_le_one uid2 _ pid2 now h
    · exact h
  · intro m1 m2 t1 t2
    rw [hstep m1 t1 recs, hstep m2 t2 _]
    exact insertGeneration_noop _ _ (hasGenRecord_insert recs uid _ pid t1)

/-- Witness for C4: starting from an empty table, polling a succeeded job
twice leaves at most one row and the second poll is a no-op. -/
theorem C4_poll_at_most_once_witness :
    countGenPair ([] : List GenRecord) "u" "p" ≤ 1 ∧
    ((∀ (user : Option String) (status : String) (modeQ : Option String) (pid2 : String)
      (now : Int),
      countGenPair (pollStatusEffect [] user status modeQ pid2 now) "u" "p" ≤ 1) ∧
    (∀ (m1 m2 : Option String) (t1 t2 : Int),
      pollStatusEffect (pollStatusEffect [] (some "u") "succeeded" m1 "p" t1)
        (some "u") "succeeded" m2 "p" t2 =
      pollStatusEffect [] (some "u") "succeeded" m1 "p" t1)) :=
  ⟨by decide, C4_poll_at_most_once [] "u" "p" (by decide)⟩

set_option maxRecDepth 100000 in
/-- Claim C8: prompt selection is a pure function of `(mode, plan)`: each of
the four combinations uses one fixed prompt string and one fixed background
setting (independent of everything else in the request); the background
axis is decided by mode and the stylization axis by plan, as evidenced by
the die-cut/colour marker phrases of the fixed prompts. -/
theorem C8_prompt_table :
    generatePromptSelection (some "sticker") Plan.free = (FREE_PROMPT_BASE, "transparent") ∧
    generatePromptSelection (some "image") Plan.free = (FREE_PROMPT_BASE, "opaque") ∧
    generatePromptSelection (some "sticker") Plan.pro = (PRO_STICKER_PROMPT, "transparent") ∧
    generatePromptSelection (some "image") Plan.pro = (PRO_IMAGE_PROMPT, "opaque") ∧
    (∀ (m : Option String) (p : Plan) (img1 img2 : String),
      (makePredictionRequest m p img1).prompt = (makePredictionRequest m p img2).prompt ∧
      (makePredictionRequest m p img1).background = (makePredictionRequest m p img2).background) ∧
    strIncludes PRO_STICKER_PROMPT "die-cut contour" = true ∧
    strIncludes PRO_IMAGE_PROMPT "die-cut" = false ∧
    strIncludes FREE_PROMPT_BASE "die-cut" = false ∧
    strIncludes FREE_PROMPT_BASE "black-and-white" = true ∧
    strIncludes FREE_PROMPT_BASE "No color" = true ∧
    strIncludes PRO_STICKER_PROMPT "ORIGINAL colors" = true ∧
    strIncludes PRO_IMAGE_PROMPT "ORIGINAL color palette" = true := by
  refine ⟨rfl, rfl, rfl, rfl, fun m p img1 img2 => ⟨rfl, rfl⟩,
    ?_, ?_, ?_, ?_, ?_, ?_, ?_⟩ <;> decide

/-- The recognised spellings: each `MAP` entry, plus the canonical two-letter
codes themselves (which the `/^[A-Z]{2}$/` branch passes through). -/
def supportedSpellings : List (String × String) :=
  countryMap ++ [("US", "US"), ("CA", "CA")]

/-- Claim C6: any input whose trimmed, uppercased form is a supported
spelling (hence any case variant of it) normalizes to the same ISO-2 code
as the canonical two-letter input does, and `null`, the empty string, and
any unrecognized input yield the fallback. -/
theorem C6_normalize_country (s fb key code : String)
    (hks : (key, code) ∈ supportedSpellings)
    (hraw : jsUpper (jsTrim s) = key)
    (hs : s ≠ "") :
    normalizeCountryCode (some s) fb = code ∧
    normalizeCountryCode (some code) fb = code ∧
    normalizeCountryCode none fb = fb ∧
    normalizeCountryCode (some "") fb = fb ∧
    (∀ u : String, u ≠ "" → isTwoUpperAlpha (jsUpper (jsTrim u)) = false →
      countryMap.find? (fun p => p.1 = jsUpper (jsTrim u)) = none →
      normalizeCountryCode (some u) fb = fb) := by
  refine ⟨?_, ?_, rfl, rfl, ?_⟩
  · fin_cases hks <;>
      (simp only [normalizeCountryCode]; rw [if_neg hs, hraw]; rfl)
  · fin_cases hks <;> rfl
  · intro u hu h2 h3
    simp only [normalizeCountryCode]
    rw [if_neg hu, h2, h3]
    rfl

/-- Witness for C6: `"canada"` (a lowercase spelling) normalizes to `CA`,
the same as the canonical `"CA"`, and unrecognized input falls back. -/
theorem C6_normalize_country_witness :
    (("CANADA", "CA") ∈ supportedSpellings ∧ jsUpper (jsTrim "canada") = "CANADA" ∧
      ("canada" : String) ≠ "") ∧
    (normalizeCountryCode (some "canada") "US" = "CA" ∧
     normalizeCountryCode (some "CA") "US" = "CA" ∧
     normalizeCountryCode none "US" = "US" ∧
     normalizeCountryCode (some "") "US" = "US" ∧
     (∀ u : String, u ≠ "" → isTwoUpperAlpha (jsUpper (jsTrim u)) = false →
       countryMap.find? (fun p => p.1 = jsUpper (jsTrim u)) = none →
       normalizeCountryCode (some u) "US" = "US")) :=
  ⟨⟨by decide, by decide, by decide⟩,
   C6_normalize_country "canada" "US" "CANADA" "CA" (by decide) (by decide) (by decide)⟩

/-- Claim C7: the inline submission always happens once; the tmpfiles
fallback branch is entered exactly when the inline request fails with a
status of at least 400 and an error text matching a recognised signature;
any other rejection propagates immediately as the terminal provider error
with no fallback; at most one URL resubmission is ever made, and a
rejection of the resubmission is terminal (it becomes the provider error). -/
theorem C7_fallback_once (first : PredResult) (upload : UploadResult) (second : PredResult) :
    ((runGeneration first upload second).fallbackTried = true ↔
      ∃ c t, first = PredResult.fail c t ∧ shouldFallback c t = true) ∧
    (∀ c t, first = PredResult.fail c t → shouldFallback c t = false →
      runGeneration first upload second = ⟨GenOutcome.providerError c t, false, 1, 0⟩) ∧
    (runGeneration first upload second).inlineAttempts = 1 ∧
    (runGeneration first upload second).urlAttempts ≤ 1 ∧
    (∀ c t u c2 t2, first = PredResult.fail c t → shouldFallback c t = true →
      upload = UploadResult.ok (some u) → second = PredResult.fail c2 t2 →
      (runGeneration first upload second).outcome = GenOutcome.providerError c2 t2 ∧
      (runGeneration first upload second).fallbackTried = true ∧
      (runGeneration first upload second).urlAttempts = 1) ∧
    (∀ c t, shouldFallback c t = true →
      400 ≤ c ∧ ∃ sig ∈ fallbackSignatures, strIncludes t sig = true) ∧
    (∀ c t, 400 ≤ c → shouldFallback c t = false →
      ∀ sig ∈ fallbackSignatures, strIncludes t sig = false) := by
  refine ⟨?_, ?_, ?_, ?_, ?_, ?_, ?_⟩
  · cases first with
    | ok id => simp [runGeneration]
    | fail c t =>
      by_cases hf : shouldFallback c t = true
      · constructor
        · intro _
          exact ⟨c, t, rfl, hf⟩
        · intro _
          simp only [runGeneration, if_pos hf]
          cases upload with
          | fail st body => rfl
          | ok url =>
            cases url with
            | none => rfl
            | some u => cases second <;> rfl
      · constructor
        · intro habs
          rw [Bool.not_eq_true] at hf
          simp only [runGeneration, hf] at habs
          simp at habs
        · rintro ⟨c2, t2, he, hsf⟩
          cases he
          exact absurd hsf hf
  · intro c t hfirst hnf
    cases hfirst
    simp only [runGeneration, hnf]
    rfl
  · cases first with
    | ok id => rfl
    | fail c t =>
      by_cases hf : shouldFallback c t = true
      · simp only [runGeneration, if_pos hf]
        cases upload with
        | fail st body => rfl
        | ok url =>
          cases url with
          | none => rfl
          | some u => cases second <;> rfl
      · rw [Bool.not_eq_true] at hf
        simp only [runGeneration, hf]
        rfl
  · cases first with
    | ok id => simp [runGeneration]
    | fail c t =>
      by_cases hf : shouldFallback c t = true
      · simp only [runGeneration, if_pos hf]
        cases upload with
        | fail st body => simp
        | ok url =>
          cases url with
          | none => simp
          | some u => cases second <;> simp
      · rw [Bool.not_eq_true] at hf
        simp [runGeneration, hf]
  · intro c t u c2 t2 hfirst hf hup hsecond
    cases hfirst
    cases hup
    cases hsecond
    simp [runGeneration, hf]
  · intro c t hf
    simp only [shouldFallback, Bool.and_eq_true, decide_eq_true_eq, List.any_eq_true] at hf
    exact ⟨hf.1, hf.2⟩
  · intro c t hc hf sig hsig
    simp only [shouldFallback, Bool.and_eq_false_iff] at hf
    rcases hf with hf | hf
    · rw [decide_eq_false_iff_not] at hf
      exact absurd hc hf
    · rw [List.any_eq_false] at hf
      have := hf sig hsig
      rwa [Bool.not_eq_true] at this

/-- Witness for C7 at concrete inputs: a 413 with a recognised signature
triggers the fallback, and a failing URL resubmission is the terminal
provider error. -/
theorem C7_fallback_once_witness :
    shouldFallback 413 "Request Entity Too Large: payload exceeds limit" = true ∧
    ((runGeneration (PredResult.fail 413 "Request Entity Too Large: payload exceeds limit")
        (UploadResult.ok (some "https://tmpfiles.org/dl/1/u.png"))
        (PredResult.fail 500 "boom")).outcome = GenOutcome.providerError 500 "boom" ∧
     (runGeneration (PredResult.fail 413 "Request Entity Too Large: payload exceeds limit")
        (UploadResult.ok (some "https://tmpfiles.org/dl/1/u.png"))
        (PredResult.fail 500 "boom")).fallbackTried = true ∧
     (runGeneration (PredResult.fail 413 "Request Entity Too Large: payload exceeds limit")
        (UploadResult.ok (some "https://tmpfiles.org/dl/1/u.png"))
        (PredResult.fail 500 "boom")).urlAttempts = 1) :=
  ⟨by decide,
   (C7_fallback_once (PredResult.fail 413 "Request Entity Too Large: payload exceeds limit")
      (UploadResult.ok (some "https://tmpfiles.org/dl/1/u.png"))
      (PredResult.fail 500 "boom")).2.2.2.2.1
    413 "Request Entity Too Large: payload exceeds limit" "https://tmpfiles.org/dl/1/u.png"
    500 "boom" rfl (by decide) rfl rfl⟩

/-- Claim C3: verification succeeds only on a matching, unused, unexpired
token; on success the token's `used` flag transitions `false → true`, a new
session row is created, and any later verification presenting the same raw
token fails with the invalid-or-expired error (leaving the state alone).
The `huniq` hypothesis is the generation invariant that at most one stored
row carries this token's hash (tokens are fresh 32-byte random values, the
hash is deterministic); without it two physical rows with identical hashes
would each be redeemable once.  The final conjunct is the failure
direction: with no matching unused unexpired row, verification fails. -/
theorem C3_token_single_use (hash : String → String) (db : AuthDb) (raw : String)
    (now : Int) (sid : String) (lt : LoginToken)
    (huniq : (db.loginTokens.filter (fun t => t.tokenHash = hash raw)).length ≤ 1)
    (hraw : raw ≠ "")
    (hfind : findValidToken hash db.loginTokens raw now = some lt) :
    lt ∈ db.loginTokens ∧ lt.used = false ∧ now < lt.expiresAt ∧ lt.tokenHash = hash raw ∧
    verifyEndpoint hash db (some raw) now sid =
      (VerifyResult.success sid,
       ⟨db.loginTokens.map (fun t => if t.id = lt.id then { t with used := true } else t),
        { id := sid, userId := lt.userId, expiresAt := now + sessionLifetime } :: db.sessions⟩) ∧
    { lt with used := true } ∈ (verifyEndpoint hash db (some raw) now sid).2.loginTokens ∧
    (∀ (now2 : Int) (sid2 : String),
      verifyEndpoint hash (verifyEndpoint hash db (some raw) now sid).2 (some raw) now2 sid2 =
        (VerifyResult.invalidOrExpired, (verifyEndpoint hash db (some raw) now sid).2)) ∧
    (∀ (db2 : AuthDb) (now2 : Int) (sid2 : String),
      findValidToken hash db2.loginTokens raw now2 = none →
      verifyEndpoint hash db2 (some raw) now2 sid2 = (VerifyResult.invalidOrExpired, db2)) := by
  have hjs : jsOrStr (some raw) "" = raw := by simp [jsOrStr, hraw]
  have hmem : lt ∈ db.loginTokens := List.mem_of_find?_eq_some hfind
  have hpred := List.find?_some hfind
  simp only [Bool.and_eq_true, decide_eq_true_eq] at hpred
  obtain ⟨⟨hhash, hused⟩, hexp⟩ := hpred
  have hrun : verifyEndpoint hash db (some raw) now sid =
      (VerifyResult.success sid,
       ⟨db.loginTokens.map (fun t => if t.id = lt.id then { t with used := true } else t),
        { id := sid, userId := lt.userId, expiresAt := now + sessionLifetime } :: db.sessions⟩) := by
    simp only [verifyEndpoint, hjs]
    rw [if_neg hraw, hfind]
  refine ⟨hmem, hused, hexp, hhash, hrun, ?_, ?_, ?_⟩
  · rw [hrun]
    have := List.mem_map_of_mem
      (fun t => if t.id = lt.id then { t with used := true } else t) hmem
    simpa using this
  · intro now2 sid2
    rw [hrun]
    have hnone : findValidToken hash
        (db.loginTokens.map (fun t => if t.id = lt.id then { t with used := true } else t))
        raw now2 = none := by
      rw [findValidToken, List.find?_eq_none]
      intro x hx
      rcases List.mem_map.mp hx with ⟨t, ht, rfl⟩
      by_cases hid : t.id = lt.id
      · rw [if_pos hid]
        simp
      · rw [if_neg hid]
        simp only [Bool.and_eq_true, decide_eq_true_eq, not_and]
        intro hth _
        exfalso
        have htf : t ∈ db.loginTokens.filter (fun t => t.tokenHash = hash raw) := by
          rw [List.mem_filter]
          exact ⟨ht, by simpa using hth.1⟩
        have hltf : lt ∈ db.loginTokens.filter (fun t => t.tokenHash = hash raw) := by
          rw [List.mem_filter]
          exact ⟨hmem, by simpa using hhash⟩
        exact hid (congrArg LoginToken.id (eq_of_mem_of_length_le_one huniq htf hltf))
    simp only [verifyEndpoint, hjs]
    rw [if_neg hraw, hnone]
  · intro db2 now2 sid2 hnone
    simp only [verifyEndpoint, hjs]
    rw [if_neg hraw, hnone]

/-- Witness for C3: a one-row token table, a concrete hash function; the
token verifies once and the theorem's conclusions apply. -/
theorem C3_token_single_use_witness :
    ((AuthDb.mk [⟨"t1", "u1", "tok#h", 100, false⟩] []).loginTokens.filter
        (fun t => t.tokenHash = (fun s => s ++ "#h") "tok")).length ≤ 1 ∧
    ("tok" : String) ≠ "" ∧
    findValidToken (fun s => s ++ "#h")
      (AuthDb.mk [⟨"t1", "u1", "tok#h", 100, false⟩] []).loginTokens "tok" 0 =
      some ⟨"t1", "u1", "tok#h", 100, false⟩ ∧
    (⟨"t1", "u1", "tok#h", 100, false⟩ : LoginToken) ∈
      (AuthDb.mk [⟨"t1", "u1", "tok#h", 100, false⟩] []).loginTokens ∧
    (∀ (now2 : Int) (sid2 : String),
      verifyEndpoint (fun s => s ++ "#h")
        (verifyEndpoint (fun s => s ++ "#h")
          (AuthDb.mk [⟨"t1", "u1", "tok#h", 100, false⟩] []) (some "tok") 0 "s1").2
        (some "tok") now2 sid2 =
        (VerifyResult.invalidOrExpired,
         (verifyEndpoint (fun s => s ++ "#h")
           (AuthDb.mk [⟨"t1", "u1", "tok#h", 100, false⟩] []) (some "tok") 0 "s1").2)) := by
  have h := C3_token_single_use (fun s => s ++ "#h")
    (AuthDb.mk [⟨"t1", "u1", "tok#h", 100, false⟩] []) "tok" 0 "s1"
    ⟨"t1", "u1", "tok#h", 100, false⟩ (by decide) (by decide) (by decide)
  exact ⟨by decide, by decide, by decide, h.1, h.2.2.2.2.2.2.1⟩

/-- Claim C1: for a one-time-payment checkout-completed event, the order body
built by `submitGootenOrder` carries the id of the triggering event's
checkout session, truncated to at most `MAX_SOURCEID_LEN = 50` characters,
as both the top-level `SourceId` and the single line item's `SourceId`,
with `IsPartnerSourceIdUnique = true`; consequently (per the spec-modelled
partner intake) submitting the same event twice records exactly one order. -/
theorem C1_dedup_token (catalog : String → List Variant)
    (recipeId billingKey stickerSkuEnv testModeEnv : Option String)
    (s : CheckoutSession) (body : OrderBody)
    (hid : s.id ≠ "")
    (hok : webhookOneTimeOrder catalog recipeId billingKey stickerSkuEnv testModeEnv s =
      Except.ok body) :
    body.sourceId = some (jsSliceTo s.id MAX_SOURCEID_LEN) ∧
    body.items.map OrderItem.sourceId = [some (jsSliceTo s.id MAX_SOURCEID_LEN)] ∧
    body.isPartnerSourceIdUnique = true ∧
    (jsSliceTo s.id MAX_SOURCEID_LEN).data.length ≤ 50 ∧
    partnerRecordOrder (partnerRecordOrder [] body) body =
      [some (jsSliceTo s.id MAX_SOURCEID_LEN)] := by
  unfold webhookOneTimeOrder submitGootenOrder at hok
  split at hok
  · exact absurd hok (by simp)
  · simp only [] at hok
    split at hok
    · exact absurd hok (by simp)
    · rw [Except.ok.injEq] at hok
      subst hok
      have hsrc : safeSourceId (some s.id) = some (jsSliceTo s.id MAX_SOURCEID_LEN) := by
        simp [safeSourceId, hid]
      refine ⟨hsrc, by simp [hsrc], rfl, ?_, ?_⟩
      · simp only [jsSliceTo, List.length_take]
        exact Nat.min_le_left _ _
      · simp [partnerRecordOrder, hsrc]

/-- Witness for C1: a concrete catalog and session; the order body carries
the truncated session id in both positions with the unique flag set, and
two submissions record one order. -/
theorem C1_dedup_token_witness :
    (("cs_test_0123456789" : String) ≠ "" ∧
     webhookOneTimeOrder
       (fun _ => [⟨"Sticker-525x725-1Pack-Single", "525x725 1Pack Single"⟩])
       (some "recipe") (some "billing") none none
       ⟨"cs_test_0123456789", "payment", some "b@example.com", some "Bob Lee", none,
        some "https://img/x.png", some "Bob Lee",
        some ⟨some "1 Main St", none, some "Austin", some "TX", some "US", some "78701",
          none, none⟩, none⟩ =
       Except.ok
         (OrderBody.mk
           ⟨"Bob", "Lee", "1 Main St", "", "Austin", "TX", "US", "78701", "0000000000",
             "b@example.com"⟩
           ⟨"Bob", "Lee", "1 Main St", "", "Austin", "TX", "US", "78701", "0000000000",
             "b@example.com"⟩
           [⟨1, "Sticker-525x725-1Pack-Single", "standard", "https://img/x.png",
             some "cs_test_0123456789"⟩]
           "billing" false (some "cs_test_0123456789") true) : Prop) ∧
    ((OrderBody.mk
        ⟨"Bob", "Lee", "1 Main St", "", "Austin", "TX", "US", "78701", "0000000000",
          "b@example.com"⟩
        ⟨"Bob", "Lee", "1 Main St", "", "Austin", "TX", "US", "78701", "0000000000",
          "b@example.com"⟩
        [⟨1, "Sticker-525x725-1Pack-Single", "standard", "https://img/x.png",
          some "cs_test_0123456789"⟩]
        "billing" false (some "cs_test_0123456789") true).sourceId =
      some (jsSliceTo "cs_test_0123456789" MAX_SOURCEID_LEN) ∧
     (OrderBody.mk
        ⟨"Bob", "Lee", "1 Main St", "", "Austin", "TX", "US", "78701", "0000000000",
          "b@example.com"⟩
        ⟨"Bob", "Lee", "1 Main St", "", "Austin", "TX", "US", "78701", "0000000000",
          "b@example.com"⟩
        [⟨1, "Sticker-525x725-1Pack-Single", "standard", "https://img/x.png",
          some "cs_test_0123456789"⟩]
        "billing" false (some "cs_test_0123456789") true).items.map OrderItem.sourceId =
      [some (jsSliceTo "cs_test_0123456789" MAX_SOURCEID_LEN)] ∧
     (OrderBody.mk
        ⟨"Bob", "Lee", "1 Main St", "", "Austin", "TX", "US", "78701", "0000000000",
          "b@example.com"⟩
        ⟨"Bob", "Lee", "1 Main St", "", "Austin", "TX", "US", "78701", "0000000000",
          "b@example.com"⟩
        [⟨1, "Sticker-525x725-1Pack-Single", "standard", "https://img/x.png",
          some "cs_test_0123456789"⟩]
        "billing" false (some "cs_test_0123456789") true).isPartnerSourceIdUnique = true ∧
     (jsSliceTo "cs_test_0123456789" MAX_SOURCEID_LEN).data.length ≤ 50 ∧
     partnerRecordOrder
       (partnerRecordOrder []
         (OrderBody.mk
           ⟨"Bob", "Lee", "1 Main St", "", "Austin", "TX", "US", "78701", "0000000000",
             "b@example.com"⟩
           ⟨"Bob", "Lee", "1 Main St", "", "Austin", "TX", "US", "78701", "0000000000",
             "b@example.com"⟩
           [⟨1, "Sticker-525x725-1Pack-Single", "standard", "https://img/x.png",
             some "cs_test_0123456789"⟩]
           "billing" false (some "cs_test_0123456789") true))
       (OrderBody.mk
         ⟨"Bob", "Lee", "1 Main St", "", "Austin", "TX", "US", "78701", "0000000000",
           "b@example.com"⟩
         ⟨"Bob", "Lee", "1 Main St", "", "Austin", "TX", "US", "78701", "0000000000",
           "b@example.com"⟩
         [⟨1, "Sticker-525x725-1Pack-Single", "standard", "https://img/x.png",
           some "cs_test_0123456789"⟩]
         "billing" false (some "cs_test_0123456789") true) =
       [some (jsSliceTo "cs_test_0123456789" MAX_SOURCEID_LEN)]) :=
  ⟨⟨by decide, rfl⟩,
   C1_dedup_token
     (fun _ => [⟨"Sticker-525x725-1Pack-Single", "525x725 1Pack Single"⟩])
     (some "recipe") (some "billing") none none
     ⟨"cs_test_0123456789", "payment", some "b@example.com", some "Bob Lee", none,
      some "https://img/x.png", some "Bob Lee",
      some ⟨some "1 Main St", none, some "Austin", some "TX", some "US", some "78701",
        none, none⟩, none⟩
     (OrderBody.mk
       ⟨"Bob", "Lee", "1 Main St", "", "Austin", "TX", "US", "78701", "0000000000",
         "b@example.com"⟩
       ⟨"Bob", "Lee", "1 Main St", "", "Austin", "TX", "US", "78701", "0000000000",
         "b@example.com"⟩
       [⟨1, "Sticker-525x725-1Pack-Single", "standard", "https://img/x.png",
         some "cs_test_0123456789"⟩]
       "billing" false (some "cs_test_0123456789") true)
     (by decide) rfl⟩

/-- Counterexample to claim C9 as stated: at a concrete one-time-payment
event the two runs below differ only in the fulfillment outcome (the first
succeeds, the second is rejected by the partner), yet the operator email's
content is character-for-character identical — the email cannot and does
not summarize whether fulfillment succeeded.  The fulfillment outcome is
only logged. -/
theorem C9_email_counterexample :
    exceptIsOk (runOneTimeBranch (fun _ => [⟨"S", "525x725 1Pack Single"⟩])
      (some "r") (some "k") none none
      ⟨"cs_1", "payment", none, none, none, none, none, none, none⟩
      true 200 "" true).fulfillment = true ∧
    exceptIsOk (runOneTimeBranch (fun _ => [⟨"S", "525x725 1Pack Single"⟩])
      (some "r") (some "k") none none
      ⟨"cs_1", "payment", none, none, none, none, none, none, none⟩
      false 500 "partner down" true).fulfillment = false ∧
    (runOneTimeBranch (fun _ => [⟨"S", "525x725 1Pack Single"⟩])
      (some "r") (some "k") none none
      ⟨"cs_1", "payment", none, none, none, none, none, none, none⟩
      true 200 "" true).emailHtml =
    (runOneTimeBranch (fun _ => [⟨"S", "525x725 1Pack Single"⟩])
      (some "r") (some "k") none none
      ⟨"cs_1", "payment", none, none, none, none, none, none, none⟩
      false 500 "partner down" true).emailHtml := by
  refine ⟨rfl, rfl, rfl⟩

/-- Claim C9 as amended: for every one-time-payment checkout-completed event,
the operator email is attempted regardless of the fulfillment outcome, the
event is always acknowledged (neither a fulfillment failure nor an email
failure prevents the acknowledgment), and the email summarizes the order
(buyer name, buyer email, shipping address, artwork) — but its content is
independent of the fulfillment and delivery outcomes; fulfillment failure
is reported in the server logs only. -/
theorem C9_email_always_attempted (catalog : String → List Variant)
    (recipeId billingKey stickerSkuEnv testModeEnv : Option String)
    (s : CheckoutSession) (pa : Bool) (st : Nat) (rb : String) (md : Bool) :
    (runOneTimeBranch catalog recipeId billingKey stickerSkuEnv testModeEnv s
      pa st rb md).emailAttempted = true ∧
    (runOneTimeBranch catalog recipeId billingKey stickerSkuEnv testModeEnv s
      pa st rb md).acknowledged = true ∧
    (runOneTimeBranch catalog recipeId billingKey stickerSkuEnv testModeEnv s
      pa st rb md).emailHtml =
      orderEmailHtml (jsOrStr s.metadataBuyerName (jsOrStr s.customerName "Customer"))
        (jsOrStr s.customerEmail "unknown") (oneTimeShipping s)
        (jsOrStr s.metadataImageUrl "") ∧
    (∀ (pa2 : Bool) (st2 : Nat) (rb2 : String) (md2 : Bool),
      (runOneTimeBranch catalog recipeId billingKey stickerSkuEnv testModeEnv s
        pa2 st2 rb2 md2).emailHtml =
      (runOneTimeBranch catalog recipeId billingKey stickerSkuEnv testModeEnv s
        pa st rb md).emailHtml ∧
      (runOneTimeBranch catalog recipeId billingKey stickerSkuEnv testModeEnv s
        pa2 st2 rb2 md2).acknowledged = true) :=
  ⟨rfl, rfl, rfl, fun _ _ _ _ => ⟨rfl, rfl⟩⟩

/-- Claim C5: SKU resolution implements the spec's tiered policy.  Under the
catalog invariant that enabled variants carry nonempty SKUs (enforced by
`fetchVariantsForCountry`'s `.filter((v) => v.sku)`) and the caller
invariant that a supplied override is nonempty (`(env || "").trim() ||
null`), `pickSkuForCountry` coincides with the policy written from the
spec's words: override only if present in the enabled set, else strict
size+pack+variant substring match, else size+pack, else first enabled
variant — failing with the no-enabled-variants error exactly on an empty
enabled set. -/
theorem C5_sku_tiers (enabled : List Variant) (override : Option String) (country : String)
    (hsku : ∀ v ∈ enabled, v.sku ≠ "")
    (hov : override ≠ some "") :
    pickSkuForCountry enabled override country = specSkuPolicy enabled override country ∧
    (enabled = [] → pickSkuForCountry enabled override country =
      Except.error (SkuError.noEnabledVariants country)) := by
  have htiers : enabled.isEmpty = false →
      resolveByPolicy enabled country = specTiers enabled country := by
    intro hne
    unfold resolveByPolicy specTiers pickPreferredVariant
    rw [findq_congr enabled _ _ (fun v _ => strictMatch_eq_spec v),
        findq_congr enabled _ _ (fun v _ => sizePackMatch_eq_spec v)]
    cases hf1 : enabled.find? specStrictMatch with
    | some v =>
      have hv : v ∈ enabled := List.mem_of_find?_eq_some hf1
      simp [hsku v hv]
    | none =>
      cases hf2 : enabled.find? specSizePackMatch with
      | some w =>
        have hw : w ∈ enabled := List.mem_of_find?_eq_some hf2
        simp [hsku w hw]
      | none =>
        cases henl : enabled with
        | nil =>
          subst henl
          simp at hne
        | cons e es =>
          have he : e ∈ enabled := henl ▸ List.mem_cons_self e es
          subst henl
          simp [hsku e he]
  constructor
  · by_cases he : enabled.isEmpty = true
    · unfold pickSkuForCountry specSkuPolicy
      rw [if_pos he, if_pos he]
    · have he' : enabled.isEmpty = false := by rwa [Bool.not_eq_true] at he
      unfold pickSkuForCountry specSkuPolicy
      rw [if_neg he, if_neg he]
      cases override with
      | none => exact htiers he'
      | some s =>
        have hs : s ≠ "" := fun h => hov (by rw [h])
        show (if (decide (s ≠ "") && enabled.any fun v => decide (v.sku = s)) = true
            then Except.ok s else resolveByPolicy enabled country) =
          (if s ∈ List.map Variant.sku enabled then Except.ok s
            else specTiers enabled country)
        by_cases hin : s ∈ enabled.map Variant.sku
        · have hcond : (decide (s ≠ "") && enabled.any (fun v => v.sku = s)) = true := by
            rw [Bool.and_eq_true]
            refine ⟨by simpa using hs, ?_⟩
            rw [List.any_eq_true]
            rcases List.mem_map.mp hin with ⟨v, hv, hvs⟩
            exact ⟨v, hv, by simpa using hvs⟩
          rw [if_pos hcond, if_pos hin]
        · have hcond : (decide (s ≠ "") && enabled.any (fun v => v.sku = s)) = false := by
            rw [Bool.and_eq_false_iff]
            right
            rw [List.any_eq_false]
            intro v hv hvs
            exact hin (List.mem_map.mpr ⟨v, hv, by simpa using hvs⟩)
          rw [if_neg (by rw [hcond]; exact Bool.false_ne_true), if_neg hin]
          exact htiers he'
  · intro hnil
    subst hnil
    rfl

/-- Witness for C5: a two-variant catalog with an absent override; resolution
falls through the override tier to the strict match, agreeing with the spec
policy, and the empty enabled set yields the no-enabled-variants error. -/
theorem C5_sku_tiers_witness :
    (∀ v ∈ [Variant.mk "AAA" "no match", Variant.mk "BBB" "525x725 1Pack Single"],
      v.sku ≠ "") ∧
    (some "ZZZ" : Option String) ≠ some "" ∧
    (pickSkuForCountry [Variant.mk "AAA" "no match", Variant.mk "BBB" "525x725 1Pack Single"]
        (some "ZZZ") "US" =
      specSkuPolicy [Variant.mk "AAA" "no match", Variant.mk "BBB" "525x725 1Pack Single"]
        (some "ZZZ") "US" ∧
    ([Variant.mk "AAA" "no match", Variant.mk "BBB" "525x725 1Pack Single"] = [] →
      pickSkuForCountry [Variant.mk "AAA" "no match", Variant.mk "BBB" "525x725 1Pack Single"]
        (some "ZZZ") "US" = Except.error (SkuError.noEnabledVariants "US"))) :=
  ⟨by decide, by decide,
   C5_sku_tiers [Variant.mk "AAA" "no match", Variant.mk "BBB" "525x725 1Pack Single"]
     (some "ZZZ") "US" (by decide) (by decide)⟩

end Boat2Merch
